import Mathlib

/-!
Verification development for the DOM-adaptation engine of the UniFi Protect
viewer preload script (src/src/js/preload.js).

The embedding is shallow: the asynchronous, timer-driven parts of the script
are modelled as pure Lean functions over explicit environments.

Conventions used throughout:

* Time is measured in integer milliseconds.
* A polled predicate is modelled as a function from the poll index
  (1, 2, 3, ...) to a `PredResult`: the k-th poll of `setInterval` happens at
  time `k * interval` after the call.  `PredResult.throws` models a predicate
  invocation that raises an exception (which the source catches and logs).
* The page is modelled as a fixed snapshot: `querySelectorAll` results and
  child counts do not change during one driver invocation.  Under that
  snapshot every `waitUntil` over a presence predicate resolves according to
  the snapshot, so the drivers project to pure functions from the page to the
  list of style writes and clicks they perform.
* DOM style state is a function from element id and style property to an
  optional value; style writes are explicit `Write` records applied
  left-to-right, exactly in source order.
-/

/-- Result of one invocation of the polled predicate inside `waitUntil`:
the call returned a truthy value, returned a falsy value, or threw. -/
inductive PredResult
  | truthy
  | falsy
  | throws
deriving DecidableEq, Repr

/-- CONFIG.TIMEOUTS.DEFAULT_WAIT (preload.js line 18): default `waitUntil`
timeout, 60000 ms. -/
def DEFAULT_WAIT : Nat := 60000

/-- CONFIG.TIMEOUTS.INTERVAL (preload.js line 21): default `waitUntil`
poll interval, 100 ms. -/
def INTERVAL : Nat := 100

/-- CONFIG.TIMEOUTS.MIN_DELAY (preload.js line 22): the fixed settle delay
`waitUntil` inserts between completion and resolution, 20 ms. -/
def MIN_DELAY : Nat := 20

/-- Embedding of `waitUntil(condition, timeout, interval)`
(preload.js lines 157-191) as a fuel-bounded run of its timer loop.

`k` is the index of the next `setInterval` tick (the first tick has index 1
and fires at time `k * interval`); `fuel` bounds how many ticks are examined,
`none` meaning the outcome is not determined within `fuel` ticks.

At each tick the timeout timer is considered first: it was registered before
the interval timer, so when both are due at the same millisecond the timeout
callback runs first and `clearInterval` removes the due poll.  A timeout
completion resolves `false` at `timeout + MIN_DELAY`; a truthy poll at tick
`k` resolves `true` at `k * interval + MIN_DELAY`.  A falsy poll and a
throwing poll both leave the loop running: the source wraps the predicate
call in try/catch and deliberately keeps waiting on an exception. -/
def waitUntilRun (p : Nat → PredResult) (timeout : Int) (interval : Nat) :
    Nat → Nat → Option (Bool × Nat)
  | _, 0 => none
  | k, fuel + 1 =>
    if timeout ≠ -1 ∧ timeout.toNat ≤ k * interval then
      some (false, timeout.toNat + MIN_DELAY)
    else
      match p k with
      | PredResult.truthy => some (true, k * interval + MIN_DELAY)
      | _ => waitUntilRun p timeout interval (k + 1) fuel

/-- The promise returned by `waitUntil` settles with value `r` at time `t`
(milliseconds after the call): the timer loop, started at tick 1, reaches
that outcome within some finite number of ticks. -/
def WaitResolves (p : Nat → PredResult) (timeout : Int) (interval : Nat)
    (r : Bool) (t : Nat) : Prop :=
  ∃ fuel, waitUntilRun p timeout interval 1 fuel = some (r, t)

/-- Embedding of the catch branch of `waitUntil` (preload.js lines 185-188):
a throwing predicate invocation is treated exactly as a falsy one. -/
def suppressThrows : PredResult → PredResult
  | PredResult.throws => PredResult.falsy
  | r => r

lemma waitUntilRun_noTimeout_ne_false (p : Nat → PredResult) (interval : Nat) :
    ∀ fuel k t, waitUntilRun p (-1) interval k fuel ≠ some (false, t) := by
  intro fuel
  induction fuel with
  | zero => intro k t h; simp [waitUntilRun] at h
  | succ n ih =>
    intro k t h
    simp only [waitUntilRun] at h
    rw [if_neg (by simp)] at h
    cases hp : p k with
    | truthy => rw [hp] at h; simp at h
    | falsy => rw [hp] at h; exact ih (k + 1) t h
    | throws => rw [hp] at h; exact ih (k + 1) t h

lemma waitUntilRun_true_exists (p : Nat → PredResult) (timeout : Int)
    (interval : Nat) :
    ∀ fuel k t, waitUntilRun p timeout interval k fuel = some (true, t) →
      ∃ j, k ≤ j ∧ p j = PredResult.truthy := by
  intro fuel
  induction fuel with
  | zero => intro k t h; simp [waitUntilRun] at h
  | succ n ih =>
    intro k t h
    simp only [waitUntilRun] at h
    by_cases hc : timeout ≠ -1 ∧ timeout.toNat ≤ k * interval
    · rw [if_pos hc] at h; simp at h
    · rw [if_neg hc] at h
      cases hp : p k with
      | truthy => exact ⟨k, le_refl k, hp⟩
      | falsy =>
        rw [hp] at h
        obtain ⟨j, hj, hjt⟩ := ih (k + 1) t h
        exact ⟨j, le_trans (Nat.le_succ k) hj, hjt⟩
      | throws =>
        rw [hp] at h
        obtain ⟨j, hj, hjt⟩ := ih (k + 1) t h
        exact ⟨j, le_trans (Nat.le_succ k) hj, hjt⟩

lemma waitUntilRun_noTimeout_none (p : Nat → PredResult) (interval : Nat)
    (hnever : ∀ k, p k ≠ PredResult.truthy) :
    ∀ fuel k, waitUntilRun p (-1) interval k fuel = none := by
  intro fuel
  induction fuel with
  | zero => intro k; simp [waitUntilRun]
  | succ n ih =>
    intro k
    simp only [waitUntilRun]
    rw [if_neg (by simp)]
    cases hp : p k with
    | truthy => exact absurd hp (hnever k)
    | falsy => exact ih (k + 1)
    | throws => exact ih (k + 1)

lemma waitUntilRun_first_truthy (p : Nat → PredResult) (timeout : Int)
    (interval : Nat) :
    ∀ n k, p (k + n) = PredResult.truthy →
      (∀ j, k ≤ j → j < k + n → p j ≠ PredResult.truthy) →
      (timeout = -1 ∨ (k + n) * interval < timeout.toNat) →
      waitUntilRun p timeout interval k (n + 1) =
        some (true, (k + n) * interval + MIN_DELAY) := by
  intro n
  induction n with
  | zero =>
    intro k htr _ hT
    have hcond : ¬ (timeout ≠ -1 ∧ timeout.toNat ≤ k * interval) := by
      rcases hT with h1 | h2
      · exact fun hc => hc.1 h1
      · intro hc
        have h2a : k * interval < timeout.toNat := by simpa using h2
        omega
    have htr2 : p k = PredResult.truthy := by simpa using htr
    simp only [waitUntilRun, if_neg hcond, htr2]
    rfl
  | succ n ih =>
    intro k htr hmin hT
    have hcond : ¬ (timeout ≠ -1 ∧ timeout.toNat ≤ k * interval) := by
      rcases hT with h1 | h2
      · exact fun hc => hc.1 h1
      · intro hc
        have hle : k * interval ≤ (k + (n + 1)) * interval :=
          Nat.mul_le_mul_right _ (Nat.le_add_right _ _)
        omega
    have hknt : p k ≠ PredResult.truthy := hmin k (le_refl k) (by omega)
    have htr2 : p (k + 1 + n) = PredResult.truthy := by
      rw [show k + 1 + n = k + (n + 1) by omega]; exact htr
    have hmin2 : ∀ j, k + 1 ≤ j → j < k + 1 + n → p j ≠ PredResult.truthy :=
      fun j h1 h2 => hmin j (by omega) (by omega)
    have hT2 : timeout = -1 ∨ (k + 1 + n) * interval < timeout.toNat := by
      rcases hT with h1 | h2
      · exact Or.inl h1
      · exact Or.inr (by rw [show k + 1 + n = k + (n + 1) by omega]; exact h2)
    have hrec := ih (k + 1) htr2 hmin2 hT2
    have heq : k + 1 + n = k + (n + 1) := by omega
    have hrec2 := heq ▸ hrec
    simp only [waitUntilRun, if_neg hcond]
    cases hp : p k with
    | truthy => exact absurd hp hknt
    | falsy => exact hrec2
    | throws => exact hrec2

lemma waitUntilRun_false_of_timeout (p : Nat → PredResult) (T interval : Nat)
    (hnever : ∀ j, p j ≠ PredResult.truthy) :
    ∀ n k, T ≤ (k + n) * interval →
      waitUntilRun p (T : Int) interval k (n + 1) =
        some (false, T + MIN_DELAY) := by
  have hne : (T : Int) ≠ -1 := by omega
  have htn : (T : Int).toNat = T := Int.toNat_ofNat T
  intro n
  induction n with
  | zero =>
    intro k hle
    have hle2 : T ≤ k * interval := by simpa using hle
    simp only [waitUntilRun]
    rw [if_pos ⟨hne, by rw [htn]; exact hle2⟩, htn]
  | succ n ih =>
    intro k hle
    by_cases hk : T ≤ k * interval
    · simp only [waitUntilRun]
      rw [if_pos ⟨hne, by rw [htn]; exact hk⟩, htn]
    · have hcond : ¬ ((T : Int) ≠ -1 ∧ (T : Int).toNat ≤ k * interval) := by
        rw [htn]; exact fun hc => hk hc.2
      have hrec := ih (k + 1) (by rw [show k + 1 + n = k + (n + 1) by omega]; exact hle)
      simp only [waitUntilRun, if_neg hcond]
      cases hp : p k with
      | truthy => exact absurd hp (hnever k)
      | falsy => exact hrec
      | throws => exact hrec

lemma waitUntilRun_suppressThrows (p : Nat → PredResult) (timeout : Int)
    (interval : Nat) :
    ∀ fuel k, waitUntilRun p timeout interval k fuel =
      waitUntilRun (fun j => suppressThrows (p j)) timeout interval k fuel := by
  intro fuel
  induction fuel with
  | zero => intro k; simp [waitUntilRun]
  | succ n ih =>
    intro k
    simp only [waitUntilRun]
    by_cases hc : timeout ≠ -1 ∧ timeout.toNat ≤ k * interval
    · rw [if_pos hc, if_pos hc]
    · rw [if_neg hc, if_neg hc]
      cases hp : p k with
      | truthy => rfl
      | falsy => exact ih (k + 1)
      | throws => exact ih (k + 1)

/-- C1: for every predicate that first returns truthy within `timeoutMs` of
the call (i.e. at an executed poll tick, which fires strictly before the
timeout timer), `waitUntil` resolves `true`; for every predicate that never
returns truthy it resolves `false` exactly at `timeoutMs + MIN_DELAY`, which
is no earlier than `timeoutMs` and no later than
`timeoutMs + intervalMs + settleDelay`; the settle delay is the fixed 20 ms
`MIN_DELAY` and the default poll interval `INTERVAL` is 100 ms. -/
theorem C1_waitUntil_resolution (p : Nat → PredResult) (T interval : Nat)
    (hi : 0 < interval) :
    INTERVAL = 100 ∧ MIN_DELAY = 20 ∧
    ((∃ k, 1 ≤ k ∧ k * interval < T ∧ p k = PredResult.truthy) →
      ∃ t, WaitResolves p (T : Int) interval true t) ∧
    ((∀ k, p k ≠ PredResult.truthy) →
      WaitResolves p (T : Int) interval false (T + MIN_DELAY) ∧
      T ≤ T + MIN_DELAY ∧ T + MIN_DELAY ≤ T + interval + MIN_DELAY) := by
  refine ⟨rfl, rfl, ?_, ?_⟩
  · rintro ⟨k, hk1, hkT, hkt⟩
    have hQ : ∃ j, p (j + 1) = PredResult.truthy :=
      ⟨k - 1, by rw [show k - 1 + 1 = k by omega]; exact hkt⟩
    classical
    set j0 := Nat.find hQ with hj0
    have hj0t : p (j0 + 1) = PredResult.truthy := Nat.find_spec hQ
    have hj0le : j0 ≤ k - 1 :=
      Nat.find_min' hQ (by rw [show k - 1 + 1 = k by omega]; exact hkt)
    have hmin : ∀ j, 1 ≤ j → j < 1 + j0 → p j ≠ PredResult.truthy := by
      intro j h1 h2 hjt
      have : ¬ p ((j - 1) + 1) = PredResult.truthy :=
        Nat.find_min hQ (by omega)
      exact this (by rw [show j - 1 + 1 = j by omega]; exact hjt)
    have hTb : (1 + j0) * interval < ((T : Int)).toNat := by
      rw [Int.toNat_ofNat]
      have : (1 + j0) * interval ≤ k * interval :=
        Nat.mul_le_mul_right _ (by omega)
      omega
    have hrun := waitUntilRun_first_truthy p (T : Int) interval j0 1
      (by rw [show 1 + j0 = j0 + 1 by omega]; exact hj0t) hmin (Or.inr hTb)
    exact ⟨(1 + j0) * interval + MIN_DELAY, j0 + 1, hrun⟩
  · intro hnever
    have hle : T ≤ (1 + T) * interval := by
      have : (1 + T) * 1 ≤ (1 + T) * interval := Nat.mul_le_mul_left _ hi
      omega
    exact ⟨⟨T + 1, waitUntilRun_false_of_timeout p T interval hnever T 1 hle⟩,
      by omega, by omega⟩

/-- Witness for C1 at a concrete input: a predicate that is truthy at the
first poll, with timeout 200 ms and interval 100 ms, resolves true. -/
theorem C1_waitUntil_resolution_witness :
    0 < 100 ∧
    (∃ t, WaitResolves (fun _ => PredResult.truthy) ((200 : Nat) : Int)
      100 true t) :=
  ⟨by decide,
    (C1_waitUntil_resolution (fun _ => PredResult.truthy) 200 100
      (by decide)).2.2.1 ⟨1, by decide, by decide, rfl⟩⟩

/-- C5: a predicate invocation that throws is swallowed by the catch in
`waitUntil` and treated as not-yet-satisfied for that tick: the run is
identical to the run of the predicate with throws replaced by falsy (so an
exception is never propagated into the outcome and a throwing tick never
produces a `true` resolution); a predicate that throws on every poll never
resolves `true` and the wait ends only through the timeout path, resolving
`false` at `timeoutMs + MIN_DELAY`. -/
theorem C5_predicate_throws (p : Nat → PredResult) (timeout : Int)
    (T interval : Nat) (hi : 0 < interval) :
    (∀ k fuel, waitUntilRun p timeout interval k fuel =
      waitUntilRun (fun j => suppressThrows (p j)) timeout interval k fuel) ∧
    ((∀ k, p k = PredResult.throws) →
      (∀ t, ¬ WaitResolves p (T : Int) interval true t) ∧
      WaitResolves p (T : Int) interval false (T + MIN_DELAY)) := by
  refine ⟨fun k fuel => waitUntilRun_suppressThrows p timeout interval fuel k, ?_⟩
  intro hthrows
  have hnever : ∀ k, p k ≠ PredResult.truthy := by
    intro k h; rw [hthrows k] at h; exact PredResult.noConfusion h
  constructor
  · rintro t ⟨fuel, hrun⟩
    obtain ⟨j, _, hjt⟩ := waitUntilRun_true_exists p (T : Int) interval fuel 1 t hrun
    exact hnever j hjt
  · have hle : T ≤ (1 + T) * interval := by
      have : (1 + T) * 1 ≤ (1 + T) * interval := Nat.mul_le_mul_left _ hi
      omega
    exact ⟨T + 1, waitUntilRun_false_of_timeout p T interval hnever T 1 hle⟩

/-- Witness for C5 at a concrete input: the always-throwing predicate with
timeout 200 ms and interval 100 ms resolves false at 220 ms. -/
theorem C5_predicate_throws_witness :
    0 < 100 ∧
    WaitResolves (fun _ => PredResult.throws) ((200 : Nat) : Int) 100
      false (200 + MIN_DELAY) :=
  ⟨by decide,
    ((C5_predicate_throws (fun _ => PredResult.throws) 0 200 100
      (by decide)).2 (fun _ => rfl)).2⟩

/-- C8: `waitUntil` called with `timeoutMs = -1` never resolves `false`;
any `true` resolution is caused by a poll tick at which the predicate
returned truthy; and if the predicate is never truthy the timer loop never
settles (no fuel bound determines an outcome). -/
theorem C8_waitUntil_noTimeout (p : Nat → PredResult) (interval : Nat) :
    (∀ t, ¬ WaitResolves p (-1) interval false t) ∧
    (∀ t, WaitResolves p (-1) interval true t →
      ∃ j, 1 ≤ j ∧ p j = PredResult.truthy) ∧
    ((∀ k, p k ≠ PredResult.truthy) →
      ∀ fuel, waitUntilRun p (-1) interval 1 fuel = none) := by
  refine ⟨?_, ?_, ?_⟩
  · rintro t ⟨fuel, hrun⟩
    exact waitUntilRun_noTimeout_ne_false p interval fuel 1 t hrun
  · rintro t ⟨fuel, hrun⟩
    obtain ⟨j, hj, hjt⟩ := waitUntilRun_true_exists p (-1) interval fuel 1 t hrun
    exact ⟨j, hj, hjt⟩
  · intro hnever fuel
    exact waitUntilRun_noTimeout_none p interval hnever fuel 1

/-- Witness for C8 at a concrete input: with the always-falsy predicate and
interval 100 ms, no resolution to false at 120 ms is possible. -/
theorem C8_waitUntil_noTimeout_witness :
    ¬ WaitResolves (fun _ => PredResult.falsy) (-1) 100 false 120 :=
  (C8_waitUntil_noTimeout (fun _ => PredResult.falsy) 100).1 120

/-- Element identity in the page snapshot model. -/
abbrev ElemId := Nat

/-- Fixed snapshot of the host page used while one driver invocation runs:
`query` models `document.querySelectorAll`, `subQuery` models
`element.querySelectorAll` scoped below an element, and `children` gives the
number of child nodes of an element (used by the modal-close wait). -/
structure Page where
  query : String → List ElemId
  subQuery : ElemId → String → List ElemId
  children : ElemId → Nat

/-- Map from element and inline style property to its current value, if any:
the visual (DOM style) state the drivers mutate. -/
def StyleState := ElemId → String → Option String

/-- One inline style mutation `element.style[prop] = val`, recorded with its
target element. -/
structure Write where
  elem : ElemId
  prop : String
  val : String
deriving DecidableEq, Repr

/-- Apply one style write to the style state. -/
def applyWrite (st : StyleState) (w : Write) : StyleState :=
  fun e p => if w.elem == e && w.prop == p then some w.val else st e p

/-- Apply a list of style writes left-to-right (source order). -/
def applyWrites (ws : List Write) (st : StyleState) : StyleState :=
  ws.foldl applyWrite st

/-- The last write in the list that targets the given element and property,
scanning from the right. -/
def findLastWrite : List Write → ElemId → String → Option Write
  | [], _, _ => none
  | w :: ws, e, p =>
    match findLastWrite ws e p with
    | some w2 => some w2
    | none => if w.elem == e && w.prop == p then some w else none

lemma applyWrites_lookup (ws : List Write) (st : StyleState) (e : ElemId)
    (p : String) :
    applyWrites ws st e p =
      match findLastWrite ws e p with
      | some w => some w.val
      | none => st e p := by
  induction ws generalizing st with
  | nil => rfl
  | cons w ws ih =>
    show applyWrites ws (applyWrite st w) e p = _
    rw [ih]
    cases hf : findLastWrite ws e p with
    | some w2 => simp [findLastWrite, hf]
    | none =>
      by_cases hm : (w.elem == e && w.prop == p) = true
      · simp [findLastWrite, hf, hm, applyWrite]
      · simp [findLastWrite, hf, hm, applyWrite]

/-- Replaying the same list of style writes a second time does not change the
resulting style state: every write stores a constant value, so the last
writer for each (element, property) pair is the same in both runs. -/
lemma applyWrites_idem (ws : List Write) (st : StyleState) :
    applyWrites ws (applyWrites ws st) = applyWrites ws st := by
  funext e p
  rw [applyWrites_lookup ws (applyWrites ws st) e p]
  cases hf : findLastWrite ws e p with
  | some w => rw [applyWrites_lookup ws st e p, hf]
  | none => rw [applyWrites_lookup ws st e p, hf]

/-- A single DOM side effect performed by a mutation helper. -/
inductive DomEffect
  | setValue (e : ElemId) (v : String)
  | dispatchInput (e : ElemId)
  | click (e : ElemId)
  | styleSet (e : ElemId) (prop v : String)
deriving DecidableEq, Repr

/-- Embedding of `setNativeValue(element, value)` (preload.js lines 198-222):
with a null element it performs no mutation and logs one error; otherwise it
sets the field value and dispatches the simulated input event.  The pair is
(DOM effects, logged error messages). -/
def setNativeValue (element : Option ElemId) (value : String) :
    List DomEffect × List String :=
  match element with
  | none => ([], ["setNativeValue: Element is null"])
  | some e => ([DomEffect.setValue e value, DomEffect.dispatchInput e], [])

/-- Embedding of `clickElement(element)` (preload.js lines 228-249): with a
null element it performs no mutation and logs one error; otherwise it clicks
the element. -/
def clickElement (element : Option ElemId) : List DomEffect × List String :=
  match element with
  | none => ([], ["clickElement: Element is null"])
  | some e => ([DomEffect.click e], [])

/-- Embedding of `setStyle(element, style, value)` (preload.js lines
257-268): with a null element it performs no mutation and logs one error
naming the style and value; otherwise it sets the style property. -/
def setStyle (element : Option ElemId) (style value : String) :
    List DomEffect × List String :=
  match element with
  | none =>
    ([], ["setStyle: Element is null for style=" ++ style ++
          ", value=" ++ value])
  | some e => ([DomEffect.styleSet e style value], [])

/-- Style-state projection of one `setStyle` call inside a driver: a null
target yields no write (the source logs and returns), a present target
yields exactly one write. -/
def setStyleWrites (element : Option ElemId) (style value : String) :
    List Write :=
  match element with
  | none => []
  | some e => [⟨e, style, value⟩]

/-- Embedding of `hasElements(elements)` (preload.js lines 285-287). -/
def hasElements (elements : List ElemId) : Bool :=
  !elements.isEmpty

/-- Embedding of `elementExists(elements, index)` (preload.js lines
276-278). -/
def elementExists (elements : List ElemId) (index : Nat) : Bool :=
  hasElements elements && (elements.get? index).isSome

/-- Embedding of `document.querySelector(sel)`: the first element of the
`querySelectorAll` result, if any. -/
def qsel (pg : Page) (s : String) : Option ElemId :=
  (pg.query s).head?

/-- Embedding of `element.querySelector(sel)` below a scoped element. -/
def subqsel (pg : Page) (e : ElemId) (s : String) : Option ElemId :=
  (pg.subQuery e s).head?

namespace SELECTORS

def LOADING_SCREEN : String := "[data-testid=\"loader-screen\"]"

def LOGIN_BUTTON : String := "button"

def USERNAME_INPUT : String := "input[name=\"username\"]"

def PASSWORD_INPUT : String := "input[name=\"password\"]"

def HEADER : String := "header"

def NAV : String := "nav"

def MODAL_PORTAL : String := ".ReactModalPortal"

def MODAL_CLOSE_BUTTON : String := "svg"

def VERSION_TEXT : String := "[class^=Version__Item] > span"

namespace V2

def VIEWPORT_WRAPPER : String := "[class^=liveview__ViewportsWrapper]"

end V2

namespace V3

def LIVE_VIEW_WRAPPER : String := "[class^=dashboard__LiveViewWrapper]"

def WIDGETS : String := "[class^=dashboard__Widgets]"

def HEADER : String := "[class^=liveView__Header]"

def EXPAND_BUTTON : String := "button[class^=dashboard__ExpandButton]"

def CONTENT : String := "[class^=dashboard__Content]"

def SCROLLABLE : String := "[class^=dashboard__Scrollable]"

def VIEWPORT_WRAPPER : String := "[class^=liveview__ViewportsWrapper]"

def CAMERA_NAME_WRAPPER : String :=
  "[class^=LiveViewGridSlot__CameraNameWrapper] button"

end V3

namespace V4_V5

def FULLSCREEN_WRAPPER : String := "[class^=liveView__FullscreenWrapper]"

def LIVE_VIEW_WRAPPER : String := "[class^=liveView__LiveViewWrapper]"

def WIDGETS : String := "[class^=dashboard__Widgets]"

def EXPAND_BUTTON : String := "button[class^=dashboard__ExpandButton]"

def CONTENT : String := "[class^=dashboard__Content]"

def WIDGET : String := "[class^=common__Widget]"

def SCROLLABLE : String := "[class^=dashboard__Scrollable]"

def VIEWPORT_WRAPPER : String := "[class^=liveview__ViewportsWrapper]"

def OPTION_BUTTON : String := "[data-testid=\"option\"]"

def PLAYER_OPTIONS : String :=
  "[class^=LiveViewGridSlot__PlayerOptions] [class^=LiveViewGridSlot__StyledGoToButton]"

def ERROR_WRAPPER : String := "[class^=ViewportError__Wrapper]"

end V4_V5

end SELECTORS

/-- Concatenation of the lists produced for each element, in order: the
effect of a `forEach` loop that emits a fixed group of writes per element. -/
def concatMap (f : α → List β) : List α → List β
  | [] => []
  | x :: xs => f x ++ concatMap f xs

/-- Clicks performed by `closeAllModals` (preload.js lines 322-341): for
every open modal portal whose subtree contains a close control, click the
first such control. -/
def closeAllModalsClicks (pg : Page) : List ElemId :=
  if hasElements (pg.query SELECTORS.MODAL_PORTAL) then
    (pg.query SELECTORS.MODAL_PORTAL).filterMap
      (fun modalPortal =>
        (pg.subQuery modalPortal SELECTORS.MODAL_CLOSE_BUTTON).head?)
  else []

/-- Result of the trailing wait in `closeAllModals`: under the fixed page
snapshot, the wait that every modal portal has zero children resolves with
this boolean (the drivers ignore it). -/
def closeAllModalsResult (pg : Page) : Bool :=
  (pg.query SELECTORS.MODAL_PORTAL).all (fun e => pg.children e == 0)

/-- Outcome of one layout-driver invocation against a fixed page snapshot:
the clicks it performs (via `closeAllModals`), the style writes it applies
in source order, and its boolean result. -/
structure DriverRun where
  clicks : List ElemId
  writes : List Write
  ok : Bool
deriving DecidableEq, Repr

/-- Embedding of `handleLiveviewV2` (preload.js lines 387-416) against a
fixed page snapshot: wait for the V2 viewport wrapper (fail if absent),
close all modals, hide header and nav, and cap the viewport wrapper at
100vw/100vh. -/
def handleLiveviewV2 (pg : Page) : DriverRun :=
  if !hasElements (pg.query SELECTORS.V2.VIEWPORT_WRAPPER) then
    ⟨[], [], false⟩
  else
    ⟨closeAllModalsClicks pg,
      setStyleWrites (qsel pg SELECTORS.HEADER) "display" "none" ++
      setStyleWrites (qsel pg SELECTORS.NAV) "display" "none" ++
      setStyleWrites (qsel pg SELECTORS.V2.VIEWPORT_WRAPPER) "maxWidth" "100vw" ++
      setStyleWrites (qsel pg SELECTORS.V2.VIEWPORT_WRAPPER) "maxHeight" "100vh",
      true⟩

/-- Embedding of `handleLiveviewV3` (preload.js lines 422-497) against a
fixed page snapshot, with its waits resolved according to the snapshot:
wait for the live-view wrapper (fail if absent), close modals, apply base
styles, wait for widgets + header + expand button (fail if absent after the
base styles), hide them, restyle content, scrollable and viewport wrapper,
and if camera-name buttons are present make them non-interactive. -/
def handleLiveviewV3 (pg : Page) : DriverRun :=
  if !hasElements (pg.query SELECTORS.V3.LIVE_VIEW_WRAPPER) then
    ⟨[], [], false⟩
  else
    let clicks := closeAllModalsClicks pg
    let base :=
      setStyleWrites (qsel pg "body") "background" "black" ++
      setStyleWrites (qsel pg SELECTORS.HEADER) "display" "none" ++
      setStyleWrites (qsel pg SELECTORS.NAV) "display" "none"
    if !(hasElements (pg.query SELECTORS.V3.WIDGETS) &&
         hasElements (pg.query SELECTORS.V3.HEADER) &&
         hasElements (pg.query SELECTORS.V3.EXPAND_BUTTON)) then
      ⟨clicks, base, false⟩
    else
      let ws2 :=
        setStyleWrites (qsel pg SELECTORS.V3.WIDGETS) "display" "none" ++
        setStyleWrites (qsel pg SELECTORS.V3.HEADER) "display" "none" ++
        setStyleWrites (qsel pg SELECTORS.V3.EXPAND_BUTTON) "display" "none" ++
        setStyleWrites (qsel pg SELECTORS.V3.CONTENT) "display" "block" ++
        setStyleWrites (qsel pg SELECTORS.V3.CONTENT) "padding" "0"
      let scrollable := (qsel pg SELECTORS.V3.LIVE_VIEW_WRAPPER).bind
        (fun e => subqsel pg e SELECTORS.V3.SCROLLABLE)
      let viewportWrapper := (qsel pg SELECTORS.V3.LIVE_VIEW_WRAPPER).bind
        (fun e => subqsel pg e SELECTORS.V3.VIEWPORT_WRAPPER)
      let ws3 :=
        setStyleWrites scrollable "paddingBottom" "0" ++
        setStyleWrites viewportWrapper "maxWidth" "calc(177.778vh - 50px)"
      let cams := pg.query SELECTORS.V3.CAMERA_NAME_WRAPPER
      let ws4 :=
        if hasElements cams then
          concatMap (fun button =>
            [⟨button, "color", "white"⟩, ⟨button, "cursor", "initial"⟩,
             ⟨button, "pointerEvents", "none"⟩]) cams
        else []
      ⟨clicks, base ++ ws2 ++ ws3 ++ ws4, true⟩

/-- Embedding of `handleLiveviewV4andV5` (preload.js lines 503-594) against
a fixed page snapshot: wait for the fullscreen wrapper (fail if absent),
close modals, apply base styles, conditionally hide widgets, expand button
and restyle content, paint the fullscreen wrapper black, restyle widget,
scrollable and viewport wrapper below the live-view wrapper, hide option
buttons and player options when their waits (500 ms poll) find them, and
black out every error wrapper. -/
def handleLiveviewV4andV5 (pg : Page) : DriverRun :=
  if !hasElements (pg.query SELECTORS.V4_V5.FULLSCREEN_WRAPPER) then
    ⟨[], [], false⟩
  else
    let clicks := closeAllModalsClicks pg
    let base :=
      setStyleWrites (qsel pg "body") "background" "black" ++
      setStyleWrites (qsel pg SELECTORS.HEADER) "display" "none" ++
      setStyleWrites (qsel pg SELECTORS.NAV) "display" "none"
    let wWidgets :=
      if hasElements (pg.query SELECTORS.V4_V5.WIDGETS) then
        setStyleWrites (qsel pg SELECTORS.V4_V5.WIDGETS) "display" "none"
      else []
    let wExpand :=
      if hasElements (pg.query SELECTORS.V4_V5.EXPAND_BUTTON) then
        setStyleWrites (qsel pg SELECTORS.V4_V5.EXPAND_BUTTON) "display" "none"
      else []
    let wContent :=
      if hasElements (pg.query SELECTORS.V4_V5.CONTENT) then
        setStyleWrites (qsel pg SELECTORS.V4_V5.CONTENT) "display" "block" ++
        setStyleWrites (qsel pg SELECTORS.V4_V5.CONTENT) "padding" "0"
      else []
    let wFullscreen :=
      setStyleWrites (qsel pg SELECTORS.V4_V5.FULLSCREEN_WRAPPER)
        "background-color" "black"
    let wLvw :=
      match qsel pg SELECTORS.V4_V5.LIVE_VIEW_WRAPPER with
      | none => []
      | some lvw =>
        setStyleWrites (subqsel pg lvw SELECTORS.V4_V5.WIDGET) "border" "0" ++
        setStyleWrites (subqsel pg lvw SELECTORS.V4_V5.SCROLLABLE)
          "paddingBottom" "0" ++
        setStyleWrites (subqsel pg lvw SELECTORS.V4_V5.VIEWPORT_WRAPPER)
          "maxWidth" "calc((100vh) * 1.7777777777777777)"
    let opts := pg.query SELECTORS.V4_V5.OPTION_BUTTON
    let wOpts :=
      if hasElements opts then
        concatMap (fun button => [⟨button, "display", "none"⟩]) opts
      else []
    let pOpts := pg.query SELECTORS.V4_V5.PLAYER_OPTIONS
    let wPOpts :=
      if hasElements pOpts then
        concatMap (fun button => [⟨button, "display", "none"⟩]) pOpts
      else []
    let wErr :=
      concatMap (fun element => [⟨element, "background-color", "black"⟩])
        (pg.query SELECTORS.V4_V5.ERROR_WRAPPER)
    ⟨clicks,
      base ++ wWidgets ++ wExpand ++ wContent ++ wFullscreen ++ wLvw ++
      wOpts ++ wPOpts ++ wErr,
      true⟩

/-- Final style state after one driver invocation on the snapshot `pg`
starting from style state `st`. -/
def applyDriver (d : Page → DriverRun) (pg : Page) (st : StyleState) :
    StyleState :=
  applyWrites (d pg).writes st

/-- C3: each layout driver, invoked twice in succession on the same page
state, produces the same final DOM style state as invoked once: the list of
style writes a driver emits depends only on the page snapshot and every
write stores a constant value, so re-application is idempotent. -/
theorem C3_layout_drivers_idempotent (pg : Page) (st : StyleState) :
    applyDriver handleLiveviewV2 pg (applyDriver handleLiveviewV2 pg st) =
      applyDriver handleLiveviewV2 pg st ∧
    applyDriver handleLiveviewV3 pg (applyDriver handleLiveviewV3 pg st) =
      applyDriver handleLiveviewV3 pg st ∧
    applyDriver handleLiveviewV4andV5 pg
        (applyDriver handleLiveviewV4andV5 pg st) =
      applyDriver handleLiveviewV4andV5 pg st :=
  ⟨applyWrites_idem _ _, applyWrites_idem _ _, applyWrites_idem _ _⟩

/-- C9: every mutation helper invoked with a null target element returns
normally with no DOM effect and exactly one logged error message. -/
theorem C9_null_safe_mutation_helpers (value style v : String) :
    setNativeValue none value = ([], ["setNativeValue: Element is null"]) ∧
    clickElement none = ([], ["clickElement: Element is null"]) ∧
    setStyle none style v =
      ([], ["setStyle: Element is null for style=" ++ style ++
            ", value=" ++ v]) :=
  ⟨rfl, rfl, rfl⟩

/-- Concrete page: a V2 viewport wrapper is present, and one modal portal
(element 20) is open with a close control (element 21) and one child. -/
def pageC4 : Page :=
  ⟨fun s =>
      if s = SELECTORS.V2.VIEWPORT_WRAPPER then [10]
      else if s = SELECTORS.MODAL_PORTAL then [20]
      else if s = SELECTORS.HEADER then [1]
      else if s = SELECTORS.NAV then [2]
      else [],
    fun e s =>
      if e = 20 ∧ s = SELECTORS.MODAL_CLOSE_BUTTON then [21] else [],
    fun e => if e = 20 then 1 else 0⟩

/-- C4 counterexample: the Gen-2 driver does perform modal handling.  On a
page with a V2 viewport wrapper and an open modal portal, `handleLiveviewV2`
clicks the modal close control (element 21), refuting the claim that the
Gen-2 driver performs no modal handling (the source calls `closeAllModals()`
at preload.js line 402). -/
theorem C4_gen2_modal_counterexample :
    (handleLiveviewV2 pageC4).clicks = [21] ∧
    pageC4.query SELECTORS.MODAL_PORTAL = [20] ∧
    pageC4.subQuery 20 SELECTORS.MODAL_CLOSE_BUTTON = [21] ∧
    (handleLiveviewV2 pageC4).clicks ≠ [] := by
  refine ⟨by decide, by decide, by decide, by decide⟩

lemma mem_setStyleWrites {w : Write} {e : Option ElemId} {s v : String}
    (h : w ∈ setStyleWrites e s v) : e = some w.elem := by
  cases e with
  | none => simp [setStyleWrites] at h
  | some i =>
    simp [setStyleWrites] at h
    subst h
    rfl

/-- C4 amended: when the wait for the V2 viewport wrapper succeeds, the
Gen-2 driver performs exactly: the shared close-all-modals subroutine, then
hiding of the header and nav, then capping the viewport wrapper max-width
and max-height at 100vw/100vh; every style write targets only the header,
the nav, or the viewport wrapper (in particular no widget suppression). -/
theorem C4_gen2_driver_effects (pg : Page)
    (h : hasElements (pg.query SELECTORS.V2.VIEWPORT_WRAPPER) = true) :
    (handleLiveviewV2 pg).ok = true ∧
    (handleLiveviewV2 pg).clicks = closeAllModalsClicks pg ∧
    (handleLiveviewV2 pg).writes =
      setStyleWrites (qsel pg SELECTORS.HEADER) "display" "none" ++
      setStyleWrites (qsel pg SELECTORS.NAV) "display" "none" ++
      setStyleWrites (qsel pg SELECTORS.V2.VIEWPORT_WRAPPER) "maxWidth" "100vw" ++
      setStyleWrites (qsel pg SELECTORS.V2.VIEWPORT_WRAPPER) "maxHeight" "100vh" ∧
    (∀ w ∈ (handleLiveviewV2 pg).writes,
      qsel pg SELECTORS.HEADER = some w.elem ∨
      qsel pg SELECTORS.NAV = some w.elem ∨
      qsel pg SELECTORS.V2.VIEWPORT_WRAPPER = some w.elem) := by
  have hrun : handleLiveviewV2 pg =
      ⟨closeAllModalsClicks pg,
        setStyleWrites (qsel pg SELECTORS.HEADER) "display" "none" ++
        setStyleWrites (qsel pg SELECTORS.NAV) "display" "none" ++
        setStyleWrites (qsel pg SELECTORS.V2.VIEWPORT_WRAPPER) "maxWidth" "100vw" ++
        setStyleWrites (qsel pg SELECTORS.V2.VIEWPORT_WRAPPER) "maxHeight" "100vh",
        true⟩ := by
    simp [handleLiveviewV2, h]
  rw [hrun]
  refine ⟨rfl, rfl, rfl, ?_⟩
  intro w hw
  simp only [List.mem_append] at hw
  rcases hw with ((hw | hw) | hw) | hw
  · exact Or.inl (mem_setStyleWrites hw)
  · exact Or.inr (Or.inl (mem_setStyleWrites hw))
  · exact Or.inr (Or.inr (mem_setStyleWrites hw))
  · exact Or.inr (Or.inr (mem_setStyleWrites hw))

/-- Witness for the amended C4 at a concrete input: on `pageC4` the viewport
wrapper is present and the Gen-2 driver succeeds. -/
theorem C4_gen2_driver_effects_witness :
    hasElements (pageC4.query SELECTORS.V2.VIEWPORT_WRAPPER) = true ∧
    (handleLiveviewV2 pageC4).ok = true :=
  ⟨by decide, (C4_gen2_driver_effects pageC4 (by decide)).1⟩

/-- One character list starts with another (helper for substring search). -/
def charsStartWith : List Char → List Char → Bool
  | _, [] => true
  | [], _ :: _ => false
  | c :: cs, d :: ds => c == d && charsStartWith cs ds

/-- One character list contains another as a contiguous run. -/
def charsContain : List Char → List Char → Bool
  | [], pat => charsStartWith [] pat
  | c :: cs, pat => charsStartWith (c :: cs) pat || charsContain cs pat

/-- Embedding of the JavaScript `s.includes(pat)` substring test. -/
def strContains (s pat : String) : Bool :=
  charsContain s.data pat.data

/-- DOM element carrying the version label: `innerText` is what the match
reads, `innerHTML` is what `getProtectVersion` returns. -/
structure VersionEl where
  innerText : String
  innerHTML : String
deriving DecidableEq, Repr

/-- Embedding of `getProtectVersion` (preload.js lines 302-316): over the
elements matching the version-label selector, return the `innerHTML` of the
first whose (truthy) `innerText` contains the substring Protect, and null
when the element list is empty or none matches. -/
def getProtectVersion (versionElements : List VersionEl) : Option String :=
  if versionElements.length = 0 then none
  else
    match versionElements.find? (fun el =>
      el.innerText != "" && strContains el.innerText "Protect") with
    | some versionEl => some versionEl.innerHTML
    | none => none

/-- The layout driver the orchestrator dispatches to for a dashboard run. -/
inductive Driver
  | gen3
  | gen45
  | unsupported
deriving DecidableEq, Repr

/-- Embedding of the JavaScript default `getProtectVersion() || "Protect
3.x"` (preload.js line 662): both null and the falsy empty string fall back
to the default. -/
def versionOrDefault (v : Option String) : String :=
  match v with
  | none => "Protect 3.x"
  | some s => if s = "" then "Protect 3.x" else s

/-- Embedding of the dashboard version dispatch in `run` (preload.js lines
662-684): the test for the substring 3. runs first, then the test for 4. or
5., else the version is unsupported. -/
def dispatchVersion (v : Option String) : Driver :=
  let version := versionOrDefault v
  if strContains version "3." then Driver.gen3
  else if strContains version "4." || strContains version "5." then Driver.gen45
  else Driver.unsupported

lemma protectPred_eq (t : String) :
    (t != "" && strContains t "Protect") = strContains t "Protect" := by
  by_cases h : t = ""
  · subst h; decide
  · simp [bne, beq_eq_false_iff_ne.mpr h]

lemma find?_protect_eq (l : List VersionEl) :
    l.find? (fun el => el.innerText != "" && strContains el.innerText "Protect") =
      l.find? (fun el => strContains el.innerText "Protect") := by
  simp only [protectPred_eq]

/-- C2: version detection returns the `innerHTML` of the first element
whose text contains the substring Protect (null when none exists, in
particular on the empty element list); the orchestrator classifies a
version string containing 3. to the Gen-3 driver, a version string
containing 4. or 5. (and reaching that test, i.e. not containing 3.) to the
Gen-4/5 driver, and defaults to the Gen-3 driver when no version text was
found. -/
theorem C2_version_detection_and_dispatch (versionElements : List VersionEl) :
    getProtectVersion versionElements =
      (versionElements.find? (fun el =>
        strContains el.innerText "Protect")).map VersionEl.innerHTML ∧
    getProtectVersion [] = none ∧
    (∀ s, strContains s "3." = true → dispatchVersion (some s) = Driver.gen3) ∧
    (∀ s, strContains s "3." = false →
      (strContains s "4." || strContains s "5.") = true →
      dispatchVersion (some s) = Driver.gen45) ∧
    dispatchVersion none = Driver.gen3 := by
  refine ⟨?_, rfl, ?_, ?_, by decide⟩
  · unfold getProtectVersion
    by_cases hlen : versionElements.length = 0
    · have hnil : versionElements = [] := List.length_eq_zero.mp hlen
      subst hnil; simp
    · rw [if_neg hlen, find?_protect_eq]
      cases h : versionElements.find? (fun el =>
          strContains el.innerText "Protect") with
      | none => simp
      | some el => simp
  · intro s h3
    have hs : s ≠ "" := by
      intro he; subst he; exact absurd h3 (by decide)
    simp [dispatchVersion, versionOrDefault, hs, h3]
  · intro s h3 h45
    have hs : s ≠ "" := by
      intro he; subst he; exact absurd h45 (by decide)
    simp [dispatchVersion, versionOrDefault, hs, h3, h45]

/-- Witness for C2 at a concrete input: a Gen-5 version string is
classified to the Gen-4/5 driver. -/
theorem C2_version_detection_and_dispatch_witness :
    strContains "Protect 5.0.0" "3." = false ∧
    dispatchVersion (some "Protect 5.0.0") = Driver.gen45 :=
  ⟨by decide,
    (C2_version_detection_and_dispatch []).2.2.2.1 "Protect 5.0.0"
      (by decide) (by decide)⟩

/-- C10: the substring test for 3. is evaluated before the test for 4. or
5.: every version string containing 3. (including strings that also
contain 4. or 5., such as Protect 4.3.0) dispatches the Gen-3 driver, and
the Gen-4/5 driver runs exactly for the version strings that contain 4. or
5. but do not contain 3. -/
theorem C10_dispatch_priority :
    (∀ s, strContains s "3." = true → dispatchVersion (some s) = Driver.gen3) ∧
    dispatchVersion (some "Protect 4.3.0") = Driver.gen3 ∧
    (∀ s, dispatchVersion (some s) = Driver.gen45 ↔
      (strContains s "3." = false ∧
        (strContains s "4." = true ∨ strContains s "5." = true))) := by
  have hgen3 : ∀ s, strContains s "3." = true →
      dispatchVersion (some s) = Driver.gen3 := by
    intro s h3
    have hs : s ≠ "" := by
      intro he; subst he; exact absurd h3 (by decide)
    simp [dispatchVersion, versionOrDefault, hs, h3]
  refine ⟨hgen3, hgen3 _ (by decide), ?_⟩
  intro s
  constructor
  · intro hd
    by_cases hs : s = ""
    · subst hs; exact absurd hd (by decide)
    · by_cases h3 : strContains s "3." = true
      · rw [hgen3 s h3] at hd; exact absurd hd (by decide)
      · have h3f : strContains s "3." = false := by
          cases hb : strContains s "3."
          · rfl
          · exact absurd hb h3
        by_cases h45 : (strContains s "4." || strContains s "5.") = true
        · exact ⟨h3f, Bool.or_eq_true_iff.mp h45⟩
        · have h45f : (strContains s "4." || strContains s "5.") = false := by
            cases hb : (strContains s "4." || strContains s "5.")
            · rfl
            · exact absurd hb h45
          have hu : dispatchVersion (some s) = Driver.unsupported := by
            simp [dispatchVersion, versionOrDefault, hs, h3f, h45f]
          rw [hu] at hd; exact absurd hd (by decide)
  · rintro ⟨h3f, h45⟩
    have h45t : (strContains s "4." || strContains s "5.") = true :=
      Bool.or_eq_true_iff.mpr h45
    have hs : s ≠ "" := by
      intro he; subst he
      rcases h45 with h | h
      · exact absurd h (by decide)
      · exact absurd h (by decide)
    simp [dispatchVersion, versionOrDefault, hs, h3f, h45t]

/-- Witness for C10 at a concrete input: a version string containing 3. is
dispatched to the Gen-3 driver. -/
theorem C10_dispatch_priority_witness :
    strContains "Protect 3.40.2" "3." = true ∧
    dispatchVersion (some "Protect 3.40.2") = Driver.gen3 :=
  ⟨by decide, C10_dispatch_priority.1 "Protect 3.40.2" (by decide)⟩

/-- Persisted configuration `{ url, username, password }` loaded through
`electronAPI.configLoad()`. -/
structure AppConfig where
  url : String
  username : String
  password : String
deriving DecidableEq, Repr

/-- One credential-form action performed by `handleLogin`. -/
inductive LoginAction
  | fillUsername (v : String)
  | fillPassword (v : String)
  | clickLogin
deriving DecidableEq, Repr

/-- Embedding of `handleLogin` (preload.js lines 347-381) against an
explicit environment: `loginButtonPresent` is the outcome of the wait for
the login-button selector within the default timeout, `config` the loaded
configuration (JavaScript truthiness makes an empty username or password
count as missing), and `redirected` the outcome of the wait for the active
URL to no longer contain the substring login.  The result pairs the
returned boolean with the credential-form actions performed, in order. -/
def handleLogin (loginButtonPresent : Bool) (config : Option AppConfig)
    (redirected : Bool) : Bool × List LoginAction :=
  if !loginButtonPresent then (false, [])
  else
    match config with
    | none => (false, [])
    | some c =>
      if c.username == "" || c.password == "" then (false, [])
      else
        (redirected,
          [LoginAction.fillUsername c.username,
           LoginAction.fillPassword c.password,
           LoginAction.clickLogin])

/-- A complete configuration used as concrete input. -/
def cfgLogin : AppConfig := ⟨"https://example/protect/dashboard", "u", "p"⟩

/-- C6 counterexample: with a complete configuration (username and password
both present) but the login button never found, `handleLogin` returns
Failure without filling or clicking, even when the wait for the URL to
leave the login route would have resolved true; this refutes the claim that
with a well-formed configuration the result is Success if and only if that
URL wait resolves true (the source first waits for the login button at
preload.js lines 352-359 and fails when it is absent). -/
theorem C6_login_button_counterexample :
    cfgLogin.username ≠ "" ∧ cfgLogin.password ≠ "" ∧
    handleLogin false (some cfgLogin) true = (false, []) ∧
    (handleLogin false (some cfgLogin) true).1 ≠ true :=
  ⟨by decide, by decide, rfl, by decide⟩

/-- C6 amended: `handleLogin` returns Failure when the login button is not
found within the default wait, when the loaded configuration is null, or
when its username or password is missing (empty); otherwise it fills the
credential fields, clicks the login control, and returns Success if and
only if the wait for the active URL to no longer contain the substring
login resolves true before the default timeout. -/
theorem C6_handleLogin_behavior (loginButtonPresent : Bool)
    (config : Option AppConfig) (redirected : Bool) :
    (config = none →
      handleLogin loginButtonPresent config redirected = (false, [])) ∧
    (∀ c, config = some c → (c.username = "" ∨ c.password = "") →
      handleLogin loginButtonPresent config redirected = (false, [])) ∧
    (loginButtonPresent = false →
      handleLogin loginButtonPresent config redirected = (false, [])) ∧
    (∀ c, loginButtonPresent = true → config = some c →
      c.username ≠ "" → c.password ≠ "" →
      handleLogin loginButtonPresent config redirected =
        (redirected,
          [LoginAction.fillUsername c.username,
           LoginAction.fillPassword c.password,
           LoginAction.clickLogin])) := by
  refine ⟨?_, ?_, ?_, ?_⟩
  · intro hc
    subst hc
    cases loginButtonPresent <;> rfl
  · intro c hc hmiss
    subst hc
    cases loginButtonPresent with
    | false => rfl
    | true =>
      have hb : (c.username == "" || c.password == "") = true := by
        rcases hmiss with h | h
        · rw [h]; simp
        · rw [h]; simp
      simp [handleLogin, hb]
  · intro hb
    subst hb
    rfl
  · intro c hb hc hu hp
    subst hb
    subst hc
    have hbu : (c.username == "") = false := beq_eq_false_iff_ne.mpr hu
    have hbp : (c.password == "") = false := beq_eq_false_iff_ne.mpr hp
    simp [handleLogin, hbu, hbp]

/-- Witness for the amended C6 at a concrete input: login button present,
complete configuration, URL wait resolves true, so the driver fills both
fields, clicks, and returns Success. -/
theorem C6_handleLogin_behavior_witness :
    cfgLogin.username ≠ "" ∧
    handleLogin true (some cfgLogin) true =
      (true,
        [LoginAction.fillUsername "u", LoginAction.fillPassword "p",
         LoginAction.clickLogin]) :=
  ⟨by decide,
    (C6_handleLogin_behavior true (some cfgLogin) true).2.2.2 cfgLogin rfl rfl
      (by decide) (by decide)⟩

/-- JavaScript truthiness of the stored session-expiry marker
(preload.js line 687): `localStorage.getItem` yields null (absent) or a
string, and only a non-empty string arms the watchdog. -/
def watchdogArmed : Option String → Bool
  | none => false
  | some s => s != ""

/-- The 10-minute offset before expiry (preload.js line 691). -/
def watchdogOffset : Int := 10 * 60 * 1000

/-- Embedding of the session-watchdog predicate (preload.js lines 694-696)
at poll tick `k`: `loginExpiresAt` is the numeric value of the stored
marker, `t0` the time of the `waitUntil` call, and `urlHasConfigUrl k`
whether the document URL still contains the configured URL at tick `k`
(which fires at `t0 + 60000 * k`, the 60000 ms poll interval used with
timeout -1). -/
def sessionWatchdogPred (loginExpiresAt t0 : Int) (urlHasConfigUrl : Nat → Bool)
    (k : Nat) : PredResult :=
  if !(urlHasConfigUrl k) ||
      decide (t0 + 60000 * (k : Int) > loginExpiresAt - watchdogOffset)
  then PredResult.truthy else PredResult.falsy

/-- C7: an absent marker never arms the watchdog; the trigger point is
expiry minus 10 minutes; a poll tick is satisfied exactly when the URL no
longer contains the configured URL or the current time exceeds the trigger
point; the page reload (the resolution of the timeout-free 60000 ms-interval
wait) happens at the first satisfied tick; and with expiry = now + 5
minutes the trigger point is now - 5 minutes, already past, so the wait
resolves at the very first poll tick. -/
theorem C7_session_watchdog (loginExpiresAt t0 : Int) (url : Nat → Bool) :
    watchdogArmed none = false ∧
    watchdogOffset = 10 * 60 * 1000 ∧
    (∀ k, sessionWatchdogPred loginExpiresAt t0 url k = PredResult.truthy ↔
      (url k = false ∨
        t0 + 60000 * (k : Int) > loginExpiresAt - watchdogOffset)) ∧
    (∀ n, sessionWatchdogPred loginExpiresAt t0 url (1 + n) = PredResult.truthy →
      (∀ j, 1 ≤ j → j < 1 + n →
        sessionWatchdogPred loginExpiresAt t0 url j ≠ PredResult.truthy) →
      WaitResolves (sessionWatchdogPred loginExpiresAt t0 url) (-1) 60000 true
        ((1 + n) * 60000 + MIN_DELAY)) ∧
    (loginExpiresAt = t0 + 5 * 60 * 1000 →
      WaitResolves (sessionWatchdogPred loginExpiresAt t0 url) (-1) 60000 true
        (1 * 60000 + MIN_DELAY)) := by
  have htick : ∀ k, sessionWatchdogPred loginExpiresAt t0 url k = PredResult.truthy ↔
      (url k = false ∨
        t0 + 60000 * (k : Int) > loginExpiresAt - watchdogOffset) := by
    intro k
    unfold sessionWatchdogPred
    by_cases hu : url k = false
    · rw [hu]
      simp
    · have hut : url k = true := by
        cases hb : url k
        · exact absurd hb hu
        · rfl
      rw [hut]
      by_cases hgt : t0 + 60000 * (k : Int) > loginExpiresAt - watchdogOffset
      · simp [hgt]
      · simp [hgt]
  have hfirst : ∀ n,
      sessionWatchdogPred loginExpiresAt t0 url (1 + n) = PredResult.truthy →
      (∀ j, 1 ≤ j → j < 1 + n →
        sessionWatchdogPred loginExpiresAt t0 url j ≠ PredResult.truthy) →
      WaitResolves (sessionWatchdogPred loginExpiresAt t0 url) (-1) 60000 true
        ((1 + n) * 60000 + MIN_DELAY) := by
    intro n htr hmin
    exact ⟨n + 1,
      waitUntilRun_first_truthy (sessionWatchdogPred loginExpiresAt t0 url)
        (-1) 60000 n 1 htr hmin (Or.inl rfl)⟩
  refine ⟨rfl, rfl, htick, hfirst, ?_⟩
  intro hexp
  have h1 : sessionWatchdogPred loginExpiresAt t0 url 1 = PredResult.truthy := by
    rw [htick 1]
    refine Or.inr ?_
    subst hexp
    unfold watchdogOffset
    push_cast
    omega
  have := hfirst 0 (by simpa using h1) (fun j hj1 hj2 => absurd hj2 (by omega))
  simpa using this

/-- Witness for C7 at a concrete input: now = 0, expiry in 5 minutes, URL
still matching; the watchdog wait resolves true at the first poll tick. -/
theorem C7_session_watchdog_witness :
    WaitResolves
      (sessionWatchdogPred ((0 : Int) + 5 * 60 * 1000) 0 (fun _ => true)) (-1)
      60000 true (1 * 60000 + MIN_DELAY) :=
  (C7_session_watchdog ((0 : Int) + 5 * 60 * 1000) 0 (fun _ => true)).2.2.2.2 rfl
